import Mathlib

/-!
Verification of the color-completion rule (`complete_colors` in
`src/features/completion/color.rs`) of the texlab repository.

The rule is embedded shallowly: the cursor locator, the completion builder
and the static language data are external collaborators (their code is not
part of the fragment), so they are modelled from the spec as explicit data;
`complete_colors` itself is translated line by line from the Rust source,
with the mutable `CompletionBuilder` threaded by explicit state passing.
-/

namespace ColorCompletion

/-- The kind tag of a node of the parsed document tree.  Only the
`colorReference` kind matters to this rule; every other shape (section
titles, roots, …) is collapsed into explicitly distinct constructors. -/
inductive SyntaxKind where
  | colorReference
  | sectionStmt
  | root
  | other (tag : Nat)
deriving DecidableEq

/-- An immutable node of the parsed document tree, reduced to the data this
rule inspects: its kind. -/
structure SyntaxNode where
  kind : SyntaxKind
deriving DecidableEq

namespace latex

/-- The typed AST wrapper for a color-reference construct, as produced by
`latex::ColorReference::cast`. -/
structure ColorReference where
  node : SyntaxNode
deriving DecidableEq

/-- `latex::ColorReference::cast`: classify a raw node as a Color Reference
exactly when its kind matches; every other shape yields `none`. -/
def ColorReference.cast (node : SyntaxNode) : Option ColorReference :=
  if node.kind = SyntaxKind.colorReference then some ⟨node⟩ else none

/-- The typed AST wrapper for a curly group containing a single word token,
reduced to the data this rule reads from it: the parent of its underlying
node (`group.syntax().parent()` in the source), `none` at the root. -/
structure CurlyGroupWord where
  parentNode : Option SyntaxNode
deriving DecidableEq

end latex

/-- A half-open interval [start, stop) over the document text. -/
structure TextRange where
  start : Nat
  stop : Nat
deriving DecidableEq

/-- Modelled from the spec: the request-scoped `CursorContext` is consumed
through its single operation `find_curly_group_word`, so it is modelled by
that operation's result: `none` when the caret is not inside a curly group
directly containing a single word token, otherwise the leading context, the
text range spanning the word, and the matched group node. -/
structure CursorContext where
  curlyGroupWord : Option (String × TextRange × latex.CurlyGroupWord)

/-- Modelled from the spec: the Cursor Locator contract of §4.1, a pure read
over the immutable tree. -/
def CursorContext.find_curly_group_word (context : CursorContext) :
    Option (String × TextRange × latex.CurlyGroupWord) :=
  context.curlyGroupWord

/-- Modelled from the spec: the Static Knowledge Base, an immutable table
whose `colors` field is the ordered list of recognized color names.  The
source reads it through the process-wide `LANGUAGE_DATA` global; here it is
threaded as an explicit parameter. -/
structure LanguageData where
  colors : List String

/-- Modelled from the spec: the Completion Collector accumulates
(range, label) pairs in emission order. -/
structure CompletionBuilder where
  items : List (TextRange × String)
deriving DecidableEq

/-- Modelled from the spec: `builder.color(range, name)` appends one
candidate, preserving emission order (§4.4). -/
def CompletionBuilder.color (builder : CompletionBuilder) (range : TextRange)
    (name : String) : CompletionBuilder :=
  { items := builder.items ++ [(range, name)] }

/-- The color completion rule, translated from `complete_colors` in
`src/features/completion/color.rs`.  The three `?`-gates become nested
matches that short-circuit with `(none, builder)`; the `for` loop over
`LANGUAGE_DATA.colors` becomes a left fold of `CompletionBuilder.color`.
The returned pair is (the Rust return value, the final builder state). -/
def complete_colors (LANGUAGE_DATA : LanguageData) (context : CursorContext)
    (builder : CompletionBuilder) : Option Unit × CompletionBuilder :=
  match context.find_curly_group_word with
  | none => (none, builder)
  | some (_, range, group) =>
    match group.parentNode with
    | none => (none, builder)
    | some parent =>
      match latex.ColorReference.cast parent with
      | none => (none, builder)
      | some _ =>
        (some (), LANGUAGE_DATA.colors.foldl
          (fun builder name => builder.color range name) builder)

/-- The combined outcome of the two gates of `complete_colors`: `some range`
when the locator succeeds and the located group's parent classifies as a
Color Reference, `none` otherwise. -/
def locatedRange (context : CursorContext) : Option TextRange :=
  match context.find_curly_group_word with
  | none => none
  | some (_, range, group) =>
    match group.parentNode with
    | none => none
    | some parent =>
      match latex.ColorReference.cast parent with
      | none => none
      | some _ => some range

section Helpers

/-- The fold over the color list appends exactly one `(range, name)` pair
per color name, in list order. -/
theorem foldl_color (colors : List String) (range : TextRange)
    (builder : CompletionBuilder) :
    colors.foldl (fun builder name => builder.color range name) builder =
      ⟨builder.items ++ colors.map (fun name => (range, name))⟩ := by
  induction colors generalizing builder with
  | nil => simp
  | cons c cs ih =>
    rw [List.foldl_cons, ih]
    simp [CompletionBuilder.color, List.append_assoc]

/-- `complete_colors` rewritten through the combined gate `locatedRange`. -/
theorem complete_colors_eq (ld : LanguageData) (context : CursorContext)
    (builder : CompletionBuilder) :
    complete_colors ld context builder =
      match locatedRange context with
      | none => (none, builder)
      | some range =>
          (some (), ⟨builder.items ++
            ld.colors.map (fun name => (range, name))⟩) := by
  cases h1 : context.find_curly_group_word with
  | none => simp [complete_colors, locatedRange, h1]
  | some triple =>
    obtain ⟨lead, range, group⟩ := triple
    cases h2 : group.parentNode with
    | none => simp [complete_colors, locatedRange, h1, h2]
    | some parent =>
      cases h3 : latex.ColorReference.cast parent with
      | none => simp [complete_colors, locatedRange, h1, h2, h3]
      | some cr =>
        simp [complete_colors, locatedRange, h1, h2, h3, foldl_color]

/-- If the gates succeed then `locatedRange` returns the located word's
range. -/
theorem locatedRange_of_gates (context : CursorContext) (lead : String)
    (range : TextRange) (group : latex.CurlyGroupWord) (parent : SyntaxNode)
    (h1 : context.find_curly_group_word = some (lead, range, group))
    (h2 : group.parentNode = some parent)
    (h3 : parent.kind = SyntaxKind.colorReference) :
    locatedRange context = some range := by
  simp [locatedRange, h1, h2, latex.ColorReference.cast, h3]

end Helpers

/-- A knowledge base for concrete evaluation: Scenario A of the spec. -/
def kbRBB : LanguageData := ⟨["red", "blue", "black"]⟩

/-- A knowledge base with an empty color list. -/
def kbEmpty : LanguageData := ⟨[]⟩

/-- A concrete range, the span of the word `red` in `\color{red}`. -/
def wordRange : TextRange := ⟨7, 10⟩

/-- A curly group whose parent is a color reference. -/
def colorGroup : latex.CurlyGroupWord := ⟨some ⟨SyntaxKind.colorReference⟩⟩

/-- A curly group whose parent is a section statement. -/
def sectionGroup : latex.CurlyGroupWord := ⟨some ⟨SyntaxKind.sectionStmt⟩⟩

/-- A context whose locator finds the word of `\color{red}`. -/
def ctxColor : CursorContext := ⟨some ("color-lead", wordRange, colorGroup)⟩

/-- A context equal to `ctxColor` except for the leading component. -/
def ctxColor2 : CursorContext := ⟨some ("other-lead", wordRange, colorGroup)⟩

/-- A context whose locator finds the word of `\section{red}`. -/
def ctxSection : CursorContext := ⟨some ("section-lead", wordRange, sectionGroup)⟩

/-- A fresh, empty collector. -/
def emptyBuilder : CompletionBuilder := ⟨[]⟩

/-- Claim C1: when the locator finds a curly group with a single word token
and the group's parent classifies as a Color Reference, `complete_colors`
appends to the collector exactly one candidate per entry of the knowledge
base's color list, each carrying the located word's range. -/
theorem C1_applicable_emits_color_list (ld : LanguageData)
    (context : CursorContext) (builder : CompletionBuilder) (lead : String)
    (range : TextRange) (group : latex.CurlyGroupWord) (parent : SyntaxNode)
    (h1 : context.find_curly_group_word = some (lead, range, group))
    (h2 : group.parentNode = some parent)
    (h3 : parent.kind = SyntaxKind.colorReference) :
    (complete_colors ld context builder).2.items =
      builder.items ++ ld.colors.map (fun name => (range, name)) := by
  rw [complete_colors_eq, locatedRange_of_gates context lead range group parent h1 h2 h3]

/-- Witness for C1: Scenario A evaluated concretely. -/
theorem C1_witness :
    (complete_colors kbRBB ctxColor emptyBuilder).2.items =
      [(wordRange, "red"), (wordRange, "blue"), (wordRange, "black")] := by
  have h := C1_applicable_emits_color_list kbRBB ctxColor emptyBuilder
    "color-lead" wordRange colorGroup ⟨SyntaxKind.colorReference⟩ rfl rfl rfl
  simpa [kbRBB, emptyBuilder] using h

/-- Claim C2: when the locator yields nothing, or the located group's parent
is absent or does not classify as a Color Reference, `complete_colors`
returns `none` and leaves the collector unchanged. -/
theorem C2_not_applicable_leaves_collector (ld : LanguageData)
    (context : CursorContext) (builder : CompletionBuilder)
    (h : context.find_curly_group_word = none ∨
      ∃ lead range group,
        context.find_curly_group_word = some (lead, range, group) ∧
        ∀ parent, group.parentNode = some parent →
          parent.kind ≠ SyntaxKind.colorReference) :
    complete_colors ld context builder = (none, builder) := by
  rcases h with h | ⟨lead, range, group, hf, hp⟩
  · simp [complete_colors, h]
  · cases hpn : group.parentNode with
    | none => simp [complete_colors, hf, hpn]
    | some parent =>
      have hk := hp parent hpn
      simp [complete_colors, hf, hpn, latex.ColorReference.cast, hk]

/-- Witness for C2: Scenario B (a section title argument) evaluated
concretely. -/
theorem C2_witness :
    complete_colors kbRBB ctxSection emptyBuilder = (none, emptyBuilder) :=
  C2_not_applicable_leaves_collector kbRBB ctxSection emptyBuilder
    (Or.inr ⟨"section-lead", wordRange, sectionGroup, rfl,
      fun parent hp => by cases Option.some.inj hp; decide⟩)

/-- Claim C3: `complete_colors` returns `none` exactly when one of the two
gates fails, and `some ()` exactly when both succeed, in which case the
candidates were written to the collector. -/
theorem C3_return_value_iff_gates (ld : LanguageData)
    (context : CursorContext) (builder : CompletionBuilder) :
    ((complete_colors ld context builder).1 = none ↔
      locatedRange context = none) ∧
    ((complete_colors ld context builder).1 = some () ↔
      ∃ range, locatedRange context = some range) ∧
    (∀ range, locatedRange context = some range →
      (complete_colors ld context builder).2.items =
        builder.items ++ ld.colors.map (fun name => (range, name))) := by
  rw [complete_colors_eq]
  cases h : locatedRange context <;> simp [h]

/-- Witness for C3: at a concrete applicable context the result is
`some ()`. -/
theorem C3_witness : (complete_colors kbRBB ctxColor emptyBuilder).1 = some () :=
  (C3_return_value_iff_gates kbRBB ctxColor emptyBuilder).2.1.mpr ⟨wordRange, rfl⟩

/-- Claim C4: for every applicable context the labels of the emitted
candidates, in emission order, equal the knowledge base's color list in its
stored order, independent of the caret position. -/
theorem C4_emission_order_is_kb_order (ld : LanguageData)
    (context : CursorContext) (builder : CompletionBuilder)
    (range : TextRange) (h : locatedRange context = some range) :
    ((complete_colors ld context builder).2.items.drop
        builder.items.length).map Prod.snd = ld.colors := by
  rw [complete_colors_eq, h]
  simp [List.drop_left, List.map_map, Function.comp]

/-- Witness for C4: concrete emission order at Scenario A. -/
theorem C4_witness :
    ((complete_colors kbRBB ctxColor emptyBuilder).2.items.drop
        emptyBuilder.items.length).map Prod.snd = kbRBB.colors :=
  C4_emission_order_is_kb_order kbRBB ctxColor emptyBuilder wordRange rfl

/-- Claim C5: `complete_colors` is deterministic: with the same context and
two collectors holding the same items, both invocations return the same
value and leave the same ordered item list. -/
theorem C5_deterministic (ld : LanguageData) (context : CursorContext)
    (b1 b2 : CompletionBuilder) (h : b1.items = b2.items) :
    (complete_colors ld context b1).1 = (complete_colors ld context b2).1 ∧
    (complete_colors ld context b1).2.items =
      (complete_colors ld context b2).2.items := by
  cases b1
  cases b2
  cases h
  exact ⟨rfl, rfl⟩

/-- Witness for C5: two fresh collectors at a concrete context. -/
theorem C5_witness :
    (complete_colors kbRBB ctxColor emptyBuilder).1 =
      (complete_colors kbRBB ctxColor ⟨[]⟩).1 ∧
    (complete_colors kbRBB ctxColor emptyBuilder).2.items =
      (complete_colors kbRBB ctxColor ⟨[]⟩).2.items :=
  C5_deterministic kbRBB ctxColor emptyBuilder ⟨[]⟩ rfl

/-- Claim C6: no candidate is emitted before both gates succeed; whenever
the collector changed, both gates passed and the result is `some ()` (the
not-applicable outcome is unreachable once enumeration has started). -/
theorem C6_emission_implies_gates (ld : LanguageData)
    (context : CursorContext) (builder : CompletionBuilder)
    (h : (complete_colors ld context builder).2.items ≠ builder.items) :
    (∃ range, locatedRange context = some range) ∧
    (complete_colors ld context builder).1 = some () := by
  rw [complete_colors_eq] at h ⊢
  cases hl : locatedRange context with
  | none => rw [hl] at h; exact absurd rfl h
  | some range => exact ⟨⟨range, rfl⟩, rfl⟩

/-- Witness for C6: at Scenario A the collector changes, so the gates
passed and the result is `some ()`. -/
theorem C6_witness :
    (∃ range, locatedRange ctxColor = some range) ∧
    (complete_colors kbRBB ctxColor emptyBuilder).1 = some () :=
  C6_emission_implies_gates kbRBB ctxColor emptyBuilder (by decide)

/-- Claim C7: the number of collector appends is bounded by the length of
the knowledge base's color list, and equals it exactly when the rule is
applicable (zero otherwise); in particular the enumeration is finite. -/
theorem C7_append_count (ld : LanguageData) (context : CursorContext)
    (builder : CompletionBuilder) :
    (complete_colors ld context builder).2.items.length ≤
      builder.items.length + ld.colors.length ∧
    (complete_colors ld context builder).2.items.length =
      builder.items.length +
        (if (locatedRange context).isSome then ld.colors.length else 0) := by
  rw [complete_colors_eq]
  cases h : locatedRange context <;> simp [h]

/-- Claim C8: `complete_colors` only ever appends to the collector: the
initial item list stays a prefix of the final one, and the pure embedding
leaves the context, tree and knowledge base untouched by construction. -/
theorem C8_append_only (ld : LanguageData) (context : CursorContext)
    (builder : CompletionBuilder) :
    ∃ emitted, (complete_colors ld context builder).2.items =
      builder.items ++ emitted := by
  rw [complete_colors_eq]
  cases h : locatedRange context with
  | none => exact ⟨[], by simp⟩
  | some range => exact ⟨ld.colors.map (fun name => (range, name)), rfl⟩

/-- Claim C9: with both gates passing and an empty color list, the rule
still returns `some ()` while emitting zero candidates. -/
theorem C9_empty_kb_still_some (ld : LanguageData) (context : CursorContext)
    (builder : CompletionBuilder) (range : TextRange)
    (h1 : locatedRange context = some range) (h2 : ld.colors = []) :
    (complete_colors ld context builder).1 = some () ∧
    (complete_colors ld context builder).2 = builder := by
  rw [complete_colors_eq, h1]
  simp [h2]

/-- Witness for C9: an applicable context with the empty knowledge base. -/
theorem C9_witness :
    (complete_colors kbEmpty ctxColor emptyBuilder).1 = some () ∧
    (complete_colors kbEmpty ctxColor emptyBuilder).2 = emptyBuilder :=
  C9_empty_kb_still_some kbEmpty ctxColor emptyBuilder wordRange rfl rfl

/-- Claim C10: the leading-context component of the locator's result is
discarded: two contexts whose locator results differ only in that first
component produce identical results and collector states. -/
theorem C10_leading_context_noninterference (ld : LanguageData)
    (ctx1 ctx2 : CursorContext) (builder : CompletionBuilder)
    (lead1 lead2 : String) (range : TextRange)
    (group : latex.CurlyGroupWord)
    (h1 : ctx1.find_curly_group_word = some (lead1, range, group))
    (h2 : ctx2.find_curly_group_word = some (lead2, range, group)) :
    complete_colors ld ctx1 builder = complete_colors ld ctx2 builder := by
  simp only [complete_colors, h1, h2]

/-- Witness for C10: two concrete contexts differing only in the leading
component yield the same outcome. -/
theorem C10_witness :
    complete_colors kbRBB ctxColor emptyBuilder =
      complete_colors kbRBB ctxColor2 emptyBuilder :=
  C10_leading_context_noninterference kbRBB ctxColor ctxColor2 emptyBuilder
    "color-lead" "other-lead" wordRange colorGroup rfl rfl

end ColorCompletion
